import Mathlib

/-!
Shallow embedding of the incremental synchronization engine of the
`post_catcher` repository (`bot/utils/func.py`, `bot/background_jobs.py`).

Provider RPC answers (Telethon calls) are modelled as an oracle record
`EntityOracle`: each field is the pure answer the provider gives to the
corresponding request during one pass over one entity.  The Redis
cursor/flag store is an association list threaded through explicitly;
the relational message store is a list of `Post` rows.  Requests and
store writes are also recorded in an explicit event trace where a claim
is about the order of effects.
-/

/-- A row of the `MonitoringChannel` table: the monitored-entity record.
`title = none` models an unset (NULL/empty) title. -/
structure MonitoringChannel where
  username : String
  title : Option String
deriving DecidableEq, Repr

/-- A Telethon `TypeMessage`: either a proper `Message` (with id and text,
where text `""` models both `None` and the empty string, which the code
collapses via `update.message or ""`), or a non-`Message` item such as
`MessageService`, which every `isinstance(msg, Message)` check rejects. -/
inductive TLMsg where
  | message (id : Nat) (text : String)
  | service (id : Nat)
deriving DecidableEq, Repr

def TLMsg.getId : TLMsg → Nat
  | .message i _ => i
  | .service i => i

def TLMsg.isMessage : TLMsg → Bool
  | .message _ _ => true
  | .service _ => false

/-- The Redis-backed cursor/flag store: an association list where `set`
prepends and `get` reads the most recent binding.  Values stored by the
code are the PTS counter, the chat max-id, and the `True` subscription
flag (modelled as `1`); every value the code ever stores is truthy as a
Redis string, so Python truthiness of `get` is `Option.isSome` here. -/
abbrev Store := List (String × Nat)

def Store.get (s : Store) (k : String) : Option Nat :=
  (s.find? (fun p => p.1 == k)).map (fun p => p.2)

def Store.set (s : Store) (k : String) (v : Nat) : Store :=
  (k, v) :: s

/-- A persisted `Post` row of the relational message store. -/
structure Post where
  message_id : Nat
  channel_username : String
  content : String
deriving DecidableEq, Repr

/-- The resolved entity object, with the attributes the engine reads:
`access_hash = 0` models a falsy/absent access hash, `forbidden` models
`isinstance(chat, ChatForbidden)`, and `broadcast`/`megagroup` model
`getattr(e, "broadcast"/"megagroup", False)`. -/
structure EntityV where
  id : Nat
  access_hash : Nat
  title : String
  broadcast : Bool
  megagroup : Bool
  forbidden : Bool
deriving DecidableEq, Repr

/-- Answer of `GetChannelDifferenceRequest`: `ChannelDifferenceEmpty`,
`ChannelDifferenceTooLong`, or `ChannelDifference` with the new pts,
the `new_messages` list and the `other_updates` list, where an
`other_updates` entry is `some m` exactly when the update record has a
truthy `message` attribute carrying payload `m`. -/
inductive DiffResult where
  | empty
  | tooLong
  | diff (pts : Nat) (new_messages : List TLMsg) (other_updates : List (Option TLMsg))
deriving DecidableEq, Repr

/-- Outcome of one `client.get_entity` call: success, `ValueError`
(not found in the local cache), or any other exception. -/
inductive GetEntityResult where
  | ok (e : EntityV)
  | valueError
  | otherError
deriving DecidableEq, Repr

/-- Outcome of `JoinChannelRequest`, matching the except-clauses of
`subscribe_to_channel`. -/
inductive JoinOutcome where
  | ok
  | alreadyParticipant
  | inviteExpired
  | channelPrivate
  | otherError
deriving DecidableEq, Repr

/-- Outcome of `ImportChatInviteRequest`, matching the except-clauses of
`subscribe_by_invite_hash`. -/
inductive ImportOutcome where
  | ok
  | alreadyParticipant
  | otherError
deriving DecidableEq, Repr

/-- Answer of `CheckChatInviteRequest`: the three result types the code
discriminates with `isinstance`.  `ChatInviteAlready` and
`ChatInvitePeek` carry `result.chat.id`; `ChatInvite` carries no chat. -/
inductive ChatInviteResult where
  | chatInvite
  | chatInviteAlready (chatId : Nat)
  | chatInvitePeek (chatId : Nat)
deriving DecidableEq, Repr

/-- The provider oracle for one entity during one pass: the pure answers
the Telethon client gives to each request the engine can issue.
`getEntity1`/`getEntity2` are the answers to the first and the
post-refresh `get_entity` call; `refreshOk` says whether
`get_dialogs`/`catch_up` succeed; `checkInvite = Except.error ()` models
`CheckChatInviteRequest` raising (the call sits outside the try-block of
`fetch_id_from_chat_invite_request`, so the exception propagates);
`getChannelDifference` is keyed by the pts argument; `getHistory` is
keyed by the (limit, min_id) arguments. -/
structure EntityOracle where
  isSubscribed : Bool
  joinResult : JoinOutcome
  importResult : ImportOutcome
  checkInvite : Except Unit ChatInviteResult
  getEntity1 : GetEntityResult
  refreshOk : Bool
  getEntity2 : GetEntityResult
  getFullChannelPts : Nat
  getChannelDifference : Nat → DiffResult
  getHistory : Nat → Nat → List TLMsg

/-- Events recorded while a sync function runs: provider requests and
cursor-store writes, in the order the code performs them. -/
inductive RpcEvent where
  | getFullChannel
  | setCursor (key : String) (v : Nat)
  | getDifference (pts : Nat)
  | getHistory (limit minId : Nat)
deriving DecidableEq, Repr

/-- `Function.safe_get_entity` (`func.py` 63-90).  Returns the result
together with the number of `get_entity` calls and of cache refreshes.
The outer try catches only `ValueError`; a different exception on the
first call propagates (`Except.error`).  Inside the retry block, any
exception — during the refresh or the second lookup — yields `none`. -/
def safe_get_entity (o : EntityOracle) : Except Unit (Option EntityV) × Nat × Nat :=
  match o.getEntity1 with
  | .ok e => (.ok (some e), 1, 0)
  | .otherError => (.error (), 1, 0)
  | .valueError =>
    if o.refreshOk then
      match o.getEntity2 with
      | .ok e => (.ok (some e), 2, 1)
      | .valueError => (.ok none, 2, 1)
      | .otherError => (.ok none, 2, 1)
    else (.ok none, 1, 1)

/-- `Function.Sub.subscribe_to_channel` (`func.py` 319-351).  Returns
the boolean result and the updated flag store.  Note the source: on
`UserAlreadyParticipantError` (and every other except-clause) control
falls through to the final `return False`, and only the
detected-existing-membership branch writes the `:subscribed` flag. -/
def subscribe_to_channel (o : EntityOracle) (store : Store) (channel_username : String) :
    Bool × Store :=
  if (store.get (channel_username ++ ":subscribed")).isSome then (true, store)
  else if o.isSubscribed then
    (true, store.set (channel_username ++ ":subscribed") 1)
  else
    match o.joinResult with
    | .ok => (true, store)
    | .alreadyParticipant => (false, store)
    | .inviteExpired => (false, store)
    | .channelPrivate => (false, store)
    | .otherError => (false, store)

/-- `Function.Sub.subscribe_by_invite_hash` (`func.py` 353-373). -/
def subscribe_by_invite_hash (o : EntityOracle) (store : Store) (invite_hash : String) :
    Bool × Store :=
  if (store.get (invite_hash ++ ":subscribed")).isSome then (true, store)
  else
    match o.importResult with
    | .ok => (true, store.set (invite_hash ++ ":subscribed") 1)
    | .alreadyParticipant => (true, store.set (invite_hash ++ ":subscribed") 1)
    | .otherError => (false, store)

/-- `Function.Sub.fetch_id_from_chat_invite_request` (`func.py` 375-394),
given the already-received request answer: `ChatInvite` yields `None`;
`ChatInviteAlready` and `ChatInvitePeek` yield `str(result.chat.id)`. -/
def fetch_id_from_chat_invite_request : ChatInviteResult → Option String
  | .chatInvite => none
  | .chatInviteAlready cid => some (toString cid)
  | .chatInvitePeek cid => some (toString cid)

/-- `Function._handle_too_long_state` (`func.py` 265-303): fetch the
most recent history window with `limit=100, min_id=0, max_id=0`
(arguments independent of the stale counter), re-fetch the current pts
via `GetFullChannelRequest`, persist it unconditionally, and return the
fetched window. -/
def handle_too_long_state (o : EntityOracle) (store : Store) (channel_username : String) :
    List TLMsg × Store × List RpcEvent :=
  let history := o.getHistory 100 0
  let new_pts := o.getFullChannelPts
  (history, store.set channel_username new_pts,
    [.getHistory 100 0, .getFullChannel, .setCursor channel_username new_pts])

/-- The classification step of `Function.get_difference_update_channel`
(`func.py` 126-176): issue the difference request at `pts` and handle
the three response kinds.  `ev` is the trace accumulated so far. -/
def stepDifference (o : EntityOracle) (store : Store) (channel_username : String)
    (pts : Nat) (ev : List RpcEvent) : List TLMsg × Store × List RpcEvent :=
  let ev1 := ev ++ [RpcEvent.getDifference pts]
  match o.getChannelDifference pts with
  | .empty => ([], store, ev1)
  | .tooLong =>
    let r := handle_too_long_state o store channel_username
    (r.1, r.2.1, ev1 ++ r.2.2)
  | .diff dpts new_messages other_updates =>
    let updates := new_messages ++ other_updates.filterMap id
    if dpts > pts then
      (updates, store.set channel_username dpts,
        ev1 ++ [RpcEvent.setCursor channel_username dpts])
    else
      (updates, store, ev1)

/-- `Function.get_difference_update_channel` (`func.py` 92-182).
A falsy `access_hash` returns `[]` immediately (the `if not channel`
guard is vacuous for a live object and is omitted).  With no stored
cursor, the pts is bootstrapped from `GetFullChannelRequest` and
persisted before the difference request; otherwise the stored value is
used.  The exception wrapper returning `[]` is not modelled: the oracle
answers never raise. -/
def get_difference_update_channel (o : EntityOracle) (store : Store) (channel : EntityV)
    (channel_username : String) : List TLMsg × Store × List RpcEvent :=
  if channel.access_hash = 0 then ([], store, [])
  else
    match store.get channel_username with
    | none =>
      let pts := o.getFullChannelPts
      stepDifference o (store.set channel_username pts) channel_username pts
        [RpcEvent.getFullChannel, RpcEvent.setCursor channel_username pts]
    | some pts => stepDifference o store channel_username pts []

/-- The filter of `get_difference_update_chat`:
`isinstance(msg, Message) and msg.id > last_max_id`. -/
def isNewChatMessage (last_max_id : Nat) (m : TLMsg) : Bool :=
  m.isMessage && decide (last_max_id < m.getId)

/-- Comparison key of `new_messages.sort(key=lambda m: m.id)`. -/
def leById (a b : TLMsg) : Prop := a.getId ≤ b.getId

instance : DecidableRel leById := fun a b => inferInstanceAs (Decidable (a.getId ≤ b.getId))

instance : IsTotal TLMsg leById := ⟨fun a b => Nat.le_total a.getId b.getId⟩

instance : IsTrans TLMsg leById := ⟨fun _ _ _ => Nat.le_trans⟩

/-- `new_messages.sort(key=lambda m: m.id)`: a stable ascending sort by
message id, as Python's `list.sort` performs. -/
def sortById (l : List TLMsg) : List TLMsg :=
  List.insertionSort leById l

/-- `Function.get_difference_update_chat` (`func.py` 184-263).
`ChatForbidden`, a falsy chat id, and a megagroup without access hash
return `[]`.  Otherwise: read the `chat_last_max_id:` cursor (0 when
absent), request history with `limit=50, min_id=last_max_id`, keep the
proper messages with id strictly above the cursor, sort them ascending,
and advance the cursor to the maximum id of the batch when it is
nonempty. -/
def get_difference_update_chat (o : EntityOracle) (store : Store) (chat : EntityV)
    (chat_username : String) : List TLMsg × Store × List RpcEvent :=
  if chat.forbidden then ([], store, [])
  else if chat.id = 0 then ([], store, [])
  else if chat.megagroup && chat.access_hash = 0 then ([], store, [])
  else
    let key := "chat_last_max_id:" ++ chat_username
    let last_max_id := (store.get key).getD 0
    let resp := o.getHistory 50 last_max_id
    let new_messages := resp.filter (isNewChatMessage last_max_id)
    if new_messages = [] then ([], store, [RpcEvent.getHistory 50 last_max_id])
    else
      let current_max_id := (new_messages.map TLMsg.getId).foldl max 0
      (sortById new_messages, store.set key current_max_id,
        [RpcEvent.getHistory 50 last_max_id, RpcEvent.setCursor key current_max_id])

/-- `if not msg_text.strip()`: the text is empty or whitespace-only. -/
def isBlank (s : String) : Bool := s.toList.all Char.isWhitespace

/-- `Post.message_id == update.id and Post.channel_username == username`
already present in the message store (committed or flushed rows). -/
def postExists (rows : List Post) (u : String) (mid : Nat) : Bool :=
  rows.any (fun r => r.message_id == mid && r.channel_username == u)

/-- The deduplication loop of `handle_updates_for_entities`
(`background_jobs.py` 107-132): skip non-`Message` items, skip blank
text, skip rows whose (username, id) pair already exists in the store,
stage the rest.  The existence check sees only `rows` — the rows staged
earlier in the same batch are not yet in the session. -/
def stagePosts (rows : List Post) (u : String) (updates : List TLMsg) : List Post :=
  updates.filterMap (fun upd =>
    match upd with
    | .service _ => none
    | .message i t =>
      if isBlank t then none
      else if postExists rows u i then none
      else some { message_id := i, channel_username := u, content := t })

/-- Pass-level events: the start of one monitored entity's processing,
and the single `session.commit()`. -/
inductive PassEvent where
  | entity (u : String)
  | commit
deriving DecidableEq, Repr

/-- State threaded through one pass of `handle_updates_for_entities`:
the monitored rows not deleted (with their possibly rewritten username
and backfilled title), the cursor/flag store, and the message rows
visible to the session (committed plus flushed). -/
structure PassState where
  kept : List MonitoringChannel
  store : Store
  rows : List Post
deriving DecidableEq, Repr

def keepEntity (st : PassState) (ch : MonitoringChannel) : PassState :=
  { st with kept := st.kept ++ [ch] }

/-- `handle_updates_for_entities`, from the entity-resolution step on
(`background_jobs.py` 63-140): skip when not subscribed, resolve the
entity (an uncaught resolver exception is caught by the per-entity
handler, keeping the row), backfill the title, run the channel or chat
sync strategy, and stage the deduplicated posts.  Every branch keeps
the monitored row. -/
def afterSubscribe (o : EntityOracle) (ch : MonitoringChannel) (subscribed : Bool)
    (st : PassState) : PassState :=
  match subscribed with
  | false => keepEntity st ch
  | true =>
    match (safe_get_entity o).1 with
    | .error _ => keepEntity st ch
    | .ok none => keepEntity st ch
    | .ok (some ent) =>
      let ch1 := if ch.title = none then { ch with title := some ent.title } else ch
      let res :=
        if ent.broadcast && !ent.megagroup then
          get_difference_update_channel o st.store ent ch1.username
        else
          get_difference_update_chat o st.store ent ch1.username
      let st2 := { st with store := res.2.1 }
      if res.1 = [] then keepEntity st2 ch1
      else
        let new_posts := stagePosts st2.rows ch1.username res.1
        keepEntity { st2 with rows := st2.rows ++ new_posts } ch1

/-- `s.startswith(c)` for the single-character prefixes `"@"` and `"-"`
used by `handle_updates_for_entities`. -/
def firstCharIs (s : String) (c : Char) : Bool :=
  match s.toList with
  | [] => false
  | x :: _ => x == c

/-- One iteration of the entity loop of `handle_updates_for_entities`
(`background_jobs.py` 36-145).  Handle-or-numeric identifiers go through
`subscribe_to_channel`; invite-token identifiers go through
`subscribe_by_invite_hash` and `fetch_id_from_chat_invite_request`:
a resolvable id rewrites `channel.username` in place, no id deletes the
monitored row, and a raising check is caught by the per-entity handler
(row kept, processing of this entity stops). -/
def processChannel (o : EntityOracle) (ch : MonitoringChannel) (st : PassState) : PassState :=
  if firstCharIs ch.username '@' || firstCharIs ch.username '-' then
    let r := subscribe_to_channel o st.store ch.username
    afterSubscribe o ch r.1 { st with store := r.2 }
  else
    let r := subscribe_by_invite_hash o st.store ch.username
    let st1 := { st with store := r.2 }
    match o.checkInvite with
    | .error _ => keepEntity st1 ch
    | .ok res =>
      match fetch_id_from_chat_invite_request res with
      | some new_username => afterSubscribe o { ch with username := new_username } r.1 st1
      | none => st1

/-- `handle_updates_for_entities` (`background_jobs.py` 20-146): one
pass over the monitored entities, each paired with its provider oracle.
An empty entity list returns early — before the commit.  Otherwise every
entity is processed in order (per-entity exceptions are caught inside
`processChannel`/`afterSubscribe`) and a single `session.commit()` is
issued after the loop. -/
def handle_updates_for_entities (inputs : List (EntityOracle × MonitoringChannel))
    (store : Store) (rows : List Post) : PassState × List PassEvent :=
  match inputs with
  | [] => ({ kept := [], store := store, rows := rows }, [])
  | _ :: _ =>
    let final := inputs.foldl
      (fun acc p => (processChannel p.1 p.2 acc.1, acc.2 ++ [PassEvent.entity p.2.username]))
      ({ kept := [], store := store, rows := rows }, [])
    (final.1, final.2 ++ [PassEvent.commit])

/-- A neutral oracle: no cached facts, every fallible request fails.
Concrete scenario oracles below override single fields. -/
def defaultOracle : EntityOracle where
  isSubscribed := false
  joinResult := .otherError
  importResult := .otherError
  checkInvite := .error ()
  getEntity1 := .valueError
  refreshOk := true
  getEntity2 := .valueError
  getFullChannelPts := 0
  getChannelDifference := fun _ => .empty
  getHistory := fun _ _ => []

/-- A plain broadcast channel entity used by concrete scenarios. -/
def broadcastEntity : EntityV :=
  { id := 1, access_hash := 7, title := "T", broadcast := true, megagroup := false,
    forbidden := false }

/-- A plain legacy chat entity used by concrete scenarios. -/
def chatEntity : EntityV :=
  { id := 2, access_hash := 0, title := "G", broadcast := false, megagroup := false,
    forbidden := false }

/-- Invite-resolution scenario: the check-invite answer carries the
permanent chat id `12345`. -/
def c1Oracle : EntityOracle :=
  { defaultOracle with importResult := .ok,
                       checkInvite := .ok (.chatInviteAlready 12345) }

def c1Channel : MonitoringChannel := { username := "abc123hash", title := none }

def c1State : PassState := { kept := [], store := [], rows := [] }

/-- Scenario: no cached flag, live membership not detected, and the join
request is answered with `UserAlreadyParticipantError`. -/
def c2Oracle : EntityOracle := { defaultOracle with joinResult := .alreadyParticipant }

/-- Channel-difference scenario where the response counter 12 exceeds
the stored counter 10, with one auxiliary update carrying a payload. -/
def c3OracleUp : EntityOracle :=
  { defaultOracle with getChannelDifference := fun p =>
      if p = 10 then .diff 12 [.message 3 "a"] [some (.message 4 "b"), none] else .empty }

/-- Channel-difference scenario where the response counter equals the
stored counter 10: the regression guard must leave the cursor alone. -/
def c3OracleDown : EntityOracle :=
  { defaultOracle with getChannelDifference := fun p =>
      if p = 10 then .diff 10 [.message 3 "a"] [] else .empty }

def c3Store : Store := [("ch", 10)]

/-- Chat-poll scenario of the spec: stored max-id 50, history answer
with ids 48, 51, 55, 49. -/
def c4Oracle : EntityOracle :=
  { defaultOracle with getHistory := fun lim minId =>
      if lim = 50 ∧ minId = 50 then
        [.message 48 "a", .message 51 "b", .message 55 "c", .message 49 "d"]
      else [] }

def c4Store : Store := [("chat_last_max_id:grp", 50)]

/-- Stale-cursor scenario: the difference call reports too-long, the
recovery history holds two items, and the fresh full-channel counter is
777 — far above the stored 10, but the reset is unconditional. -/
def c5Oracle : EntityOracle :=
  { defaultOracle with getFullChannelPts := 777,
                       getChannelDifference := fun _ => .tooLong,
                       getHistory := fun lim minId =>
                         if lim = 100 ∧ minId = 0 then [.message 1 "x", .service 2] else [] }

/-- Bootstrap scenario of the spec: no stored cursor, full-channel fetch
returns counter 100. -/
def c6Oracle : EntityOracle :=
  { defaultOracle with getFullChannelPts := 100 }

/-- Resolver scenario: the first lookup fails with an exception other
than the cache miss. -/
def c7Oracle : EntityOracle := { defaultOracle with getEntity1 := .otherError }

/-- Resolver scenario: both lookups miss the cache. -/
def c7WOracle : EntityOracle :=
  { defaultOracle with getEntity1 := .valueError, refreshOk := true,
                       getEntity2 := .valueError }

/-- Deduplication scenario: one pass over one subscribed channel whose
difference answer carries message id 9 both in `new_messages` and as the
payload of an auxiliary update (e.g. an edit of the fresh message), so
the collected batch holds the same id twice. -/
def c8Oracle : EntityOracle :=
  { defaultOracle with getEntity1 := .ok broadcastEntity,
                       getChannelDifference := fun p =>
                         if p = 5 then .diff 6 [.message 9 "hi"] [some (.message 9 "hi")]
                         else .empty }

def c8Store : Store := [("@c:subscribed", 1), ("@c", 5)]

def c8Channel : MonitoringChannel := { username := "@c", title := some "T" }

/-- Deduplication scenario for the staged-posts filter: one duplicate of
an existing row, one blank text, one genuinely new message, one service
item. -/
def c8wRows : List Post := [{ message_id := 1, channel_username := "@c", content := "old" }]

def c8wUpdates : List TLMsg :=
  [.message 1 "x", .message 2 " ", .message 3 "new", .service 4]

/-- A two-entity pass: the first entity fails to subscribe, the second
raises inside the invite check; both must still be walked and the single
commit must follow them. -/
def c9Inputs : List (EntityOracle × MonitoringChannel) :=
  [(defaultOracle, { username := "@a", title := none }),
   (defaultOracle, { username := "xyz", title := none })]

/-- Subscription scenario: fresh successful join (no cached flag, not a
member yet, join request succeeds). -/
def c10Oracle : EntityOracle := { defaultOracle with joinResult := .ok }

/-- Subscription scenario: invite import succeeds. -/
def c10InvOracle : EntityOracle := { defaultOracle with importResult := .ok }

theorem Store.get_set (s : Store) (k : String) (v : Nat) : (s.set k v).get k = some v := by
  simp [Store.get, Store.set, List.find?]

theorem le_foldl_max (l : List Nat) (a : Nat) : a ≤ l.foldl max a := by
  induction l generalizing a with
  | nil => exact Nat.le_refl a
  | cons h t ih => exact Nat.le_trans (Nat.le_max_left a h) (ih (max a h))

theorem mem_le_foldl_max (l : List Nat) (a x : Nat) : x ∈ l → x ≤ l.foldl max a := by
  induction l generalizing a with
  | nil => intro hx; cases hx
  | cons h t ih =>
    intro hx
    rcases List.mem_cons.mp hx with rfl | hx2
    · exact Nat.le_trans (Nat.le_max_right a x) (le_foldl_max t (max a x))
    · exact ih (max a h) hx2

theorem foldl_max_eq_or_mem (l : List Nat) (a : Nat) : l.foldl max a = a ∨ l.foldl max a ∈ l := by
  induction l generalizing a with
  | nil => exact Or.inl rfl
  | cons h t ih =>
    rcases ih (max a h) with he | hm
    · rw [List.foldl_cons, he]
      rcases max_choice a h with hc | hc
      · exact Or.inl hc
      · exact Or.inr (by rw [hc]; exact List.mem_cons_self h t)
    · exact Or.inr (List.mem_cons_of_mem h hm)

theorem gduc_stored (o : EntityOracle) (store : Store) (channel : EntityV) (u : String)
    (pts : Nat) (hHash : channel.access_hash ≠ 0) (hCur : store.get u = some pts) :
    get_difference_update_channel o store channel u = stepDifference o store u pts [] := by
  unfold get_difference_update_channel
  rw [if_neg hHash, hCur]

theorem gduc_bootstrap (o : EntityOracle) (store : Store) (channel : EntityV) (u : String)
    (hHash : channel.access_hash ≠ 0) (hCur : store.get u = none) :
    get_difference_update_channel o store channel u =
      stepDifference o (store.set u o.getFullChannelPts) u o.getFullChannelPts
        [RpcEvent.getFullChannel, RpcEvent.setCursor u o.getFullChannelPts] := by
  unfold get_difference_update_channel
  rw [if_neg hHash, hCur]

theorem stepDifference_diff (o : EntityOracle) (store : Store) (u : String) (pts : Nat)
    (ev : List RpcEvent) (dpts : Nat) (msgs : List TLMsg) (others : List (Option TLMsg))
    (h : o.getChannelDifference pts = .diff dpts msgs others) :
    stepDifference o store u pts ev =
      (msgs ++ others.filterMap id,
       if pts < dpts then store.set u dpts else store,
       ev ++ [RpcEvent.getDifference pts] ++
         if pts < dpts then [RpcEvent.setCursor u dpts] else []) := by
  unfold stepDifference
  rw [h]
  by_cases hc : pts < dpts
  · simp [hc]
  · simp [hc]

theorem stepDifference_tooLong (o : EntityOracle) (store : Store) (u : String) (pts : Nat)
    (ev : List RpcEvent) (h : o.getChannelDifference pts = .tooLong) :
    stepDifference o store u pts ev =
      (o.getHistory 100 0, store.set u o.getFullChannelPts,
       ev ++ [RpcEvent.getDifference pts] ++
         [RpcEvent.getHistory 100 0, RpcEvent.getFullChannel,
          RpcEvent.setCursor u o.getFullChannelPts]) := by
  unfold stepDifference handle_too_long_state
  rw [h]

theorem stepDifference_trace (o : EntityOracle) (store : Store) (u : String) (pts : Nat)
    (ev : List RpcEvent) :
    ∃ rest, (stepDifference o store u pts ev).2.2 =
      ev ++ [RpcEvent.getDifference pts] ++ rest ∧
      ∀ q, RpcEvent.getDifference q ∉ rest := by
  unfold stepDifference handle_too_long_state
  cases h : o.getChannelDifference pts with
  | empty => exact ⟨[], by simp, by simp⟩
  | tooLong =>
    refine ⟨[RpcEvent.getHistory 100 0, RpcEvent.getFullChannel,
             RpcEvent.setCursor u o.getFullChannelPts], by simp, ?_⟩
    intro q
    simp
  | diff dpts msgs others =>
    by_cases hc : dpts > pts
    · refine ⟨[RpcEvent.setCursor u dpts], ?_, ?_⟩
      · simp [hc]
      · intro q; simp
    · exact ⟨[], by simp [hc], by simp⟩

/-- Claim C3: for a has-new-data difference response arriving with the
stored cursor at `pts`, the cursor is overwritten with the response
counter exactly when that counter is strictly greater than `pts`, the
store is left unchanged when it is not, and in both cases the function
returns the primary `new_messages` list plus the payloads embedded in
`other_updates`. -/
theorem channel_diff_regression_guard (o : EntityOracle) (store : Store) (channel : EntityV)
    (u : String) (pts dpts : Nat) (msgs : List TLMsg) (others : List (Option TLMsg))
    (hHash : channel.access_hash ≠ 0) (hCur : store.get u = some pts)
    (hDiff : o.getChannelDifference pts = .diff dpts msgs others) :
    (get_difference_update_channel o store channel u).1 = msgs ++ others.filterMap id ∧
    (pts < dpts → (get_difference_update_channel o store channel u).2.1 = store.set u dpts) ∧
    (dpts ≤ pts → (get_difference_update_channel o store channel u).2.1 = store) := by
  rw [gduc_stored o store channel u pts hHash hCur,
      stepDifference_diff o store u pts [] dpts msgs others hDiff]
  refine ⟨rfl, ?_, ?_⟩
  · intro hlt
    simp [hlt]
  · intro hle
    simp [Nat.not_lt.mpr hle]

/-- Witness for C3: counter 12 over stored 10 rewrites the cursor and
returns both the primary and the embedded message; counter 10 over
stored 10 leaves the store untouched. -/
theorem channel_diff_regression_guard_witness :
    (get_difference_update_channel c3OracleUp c3Store broadcastEntity "ch").1 =
      [TLMsg.message 3 "a", TLMsg.message 4 "b"] ∧
    (get_difference_update_channel c3OracleUp c3Store broadcastEntity "ch").2.1 =
      Store.set c3Store "ch" 12 ∧
    (get_difference_update_channel c3OracleDown c3Store broadcastEntity "ch").2.1 = c3Store := by
  have hup := channel_diff_regression_guard c3OracleUp c3Store broadcastEntity "ch" 10 12
    [TLMsg.message 3 "a"] [some (TLMsg.message 4 "b"), none] (by decide) (by decide) (by decide)
  have hdown := channel_diff_regression_guard c3OracleDown c3Store broadcastEntity "ch" 10 10
    [TLMsg.message 3 "a"] [] (by decide) (by decide) (by decide)
  exact ⟨hup.1.trans (by decide), hup.2.1 (by decide), hdown.2.2 (by decide)⟩

/-- Claim C5: when the difference call reports too-long, recovery
returns the bounded recent-history window requested with limit 100 and
lower bound 0 (independent of the stale counter), persists the freshly
fetched full-channel counter unconditionally, and the window obeys the
page limit whenever the provider does. -/
theorem too_long_recovery_resets_cursor (o : EntityOracle) (store : Store) (channel : EntityV)
    (u : String) (pts : Nat)
    (hHash : channel.access_hash ≠ 0) (hCur : store.get u = some pts)
    (hDiff : o.getChannelDifference pts = .tooLong)
    (hLim : (o.getHistory 100 0).length ≤ 100) :
    (get_difference_update_channel o store channel u).1 = o.getHistory 100 0 ∧
    (get_difference_update_channel o store channel u).1.length ≤ 100 ∧
    (get_difference_update_channel o store channel u).2.1 = store.set u o.getFullChannelPts ∧
    RpcEvent.getHistory 100 0 ∈ (get_difference_update_channel o store channel u).2.2 := by
  rw [gduc_stored o store channel u pts hHash hCur,
      stepDifference_tooLong o store u pts [] hDiff]
  exact ⟨rfl, hLim, rfl, by simp⟩

/-- Witness for C5: stored counter 10, fresh counter 777, two recovered
history items. -/
theorem too_long_recovery_resets_cursor_witness :
    (get_difference_update_channel c5Oracle c3Store broadcastEntity "ch").1 =
      [TLMsg.message 1 "x", TLMsg.service 2] ∧
    (get_difference_update_channel c5Oracle c3Store broadcastEntity "ch").2.1 =
      Store.set c3Store "ch" 777 := by
  have h := too_long_recovery_resets_cursor c5Oracle c3Store broadcastEntity "ch" 10
    (by decide) (by decide) (by decide) (by decide)
  exact ⟨h.1.trans (by decide), h.2.2.1⟩

/-- Claim C6: with no stored cursor, the engine fetches the full-channel
counter and persists it, and only then issues the (sole) difference
request — the trace starts with the metadata fetch and the cursor write,
the difference request follows them using exactly the fetched counter,
and no other difference request occurs. -/
theorem bootstrap_persists_cursor_first (o : EntityOracle) (store : Store) (channel : EntityV)
    (u : String) (hHash : channel.access_hash ≠ 0) (hCur : store.get u = none) :
    ∃ rest, (get_difference_update_channel o store channel u).2.2 =
      RpcEvent.getFullChannel :: RpcEvent.setCursor u o.getFullChannelPts ::
        RpcEvent.getDifference o.getFullChannelPts :: rest ∧
      ∀ q, RpcEvent.getDifference q ∉ rest := by
  rw [gduc_bootstrap o store channel u hHash hCur]
  obtain ⟨rest, htr, hni⟩ := stepDifference_trace o (store.set u o.getFullChannelPts) u
    o.getFullChannelPts [RpcEvent.getFullChannel, RpcEvent.setCursor u o.getFullChannelPts]
  exact ⟨rest, by simpa using htr, hni⟩

/-- Witness for C6: the bootstrap scenario of the spec, fresh counter
100 and an up-to-date difference answer. -/
theorem bootstrap_persists_cursor_first_witness :
    ∃ rest, (get_difference_update_channel c6Oracle [] broadcastEntity "ch").2.2 =
      RpcEvent.getFullChannel :: RpcEvent.setCursor "ch" c6Oracle.getFullChannelPts ::
        RpcEvent.getDifference c6Oracle.getFullChannelPts :: rest ∧
      ∀ q, RpcEvent.getDifference q ∉ rest :=
  bootstrap_persists_cursor_first c6Oracle [] broadcastEntity "ch" (by decide) rfl

/-- Counterexample to C7 as stated: a provider error other than the
cache miss on the first lookup is not caught by `safe_get_entity` — the
exception propagates instead of the operation returning none. -/
theorem resolver_raises_on_first_other_error :
    (safe_get_entity c7Oracle).1 = .error () ∧ (safe_get_entity c7Oracle).1 ≠ .ok none :=
  ⟨rfl, fun h => nomatch h⟩

/-- Claim C7 (amended): direct lookup first; only a not-found-in-cache
failure triggers one refresh and exactly one retry; a second miss or an
error during the retry returns none, as does a refresh failure; never
more than two lookups or one refresh.  However, a provider error other
than the cache miss on the FIRST lookup propagates to the caller rather
than returning none. -/
theorem resolver_single_retry (o : EntityOracle) :
    (safe_get_entity o).2.1 ≤ 2 ∧
    (safe_get_entity o).2.2 ≤ 1 ∧
    (∀ e, o.getEntity1 = .ok e → safe_get_entity o = (.ok (some e), 1, 0)) ∧
    (o.getEntity1 = .valueError → o.refreshOk = true → o.getEntity2 = .valueError →
      safe_get_entity o = (.ok none, 2, 1)) ∧
    (o.getEntity1 = .valueError → o.refreshOk = true → o.getEntity2 = .otherError →
      safe_get_entity o = (.ok none, 2, 1)) ∧
    (o.getEntity1 = .valueError → o.refreshOk = false →
      safe_get_entity o = (.ok none, 1, 1)) ∧
    (o.getEntity1 = .otherError → (safe_get_entity o).1 = .error ()) := by
  unfold safe_get_entity
  cases h1 : o.getEntity1 <;> cases h2 : o.refreshOk <;> cases h3 : o.getEntity2 <;> simp_all

/-- Witness for C7 (amended): two consecutive cache misses give none
after exactly two lookups and one refresh. -/
theorem resolver_single_retry_witness :
    safe_get_entity c7WOracle = (.ok none, 2, 1) ∧ (safe_get_entity c7WOracle).2.1 ≤ 2 :=
  ⟨(resolver_single_retry c7WOracle).2.2.2.1 rfl rfl rfl, (resolver_single_retry c7WOracle).1⟩

/-- Claim C2 is contradicted by the code: a join attempt answered with
`UserAlreadyParticipantError` (no cached flag, live membership not
detected) makes `subscribe_to_channel` return false and write nothing,
because the except-clause prints the success message but falls through
to the final `return False`. -/
theorem subscribe_already_participant_returns_false :
    subscribe_to_channel c2Oracle [] "@c" = (false, []) := rfl

/-- Claim C10: a fresh successful join returns true without writing the
`:subscribed` flag (so later passes re-attempt the join); the flag store
is mutated by `subscribe_to_channel` only on the detected-existing-
membership path, and `subscribe_by_invite_hash` writes the flag on its
import-success and already-participant paths. -/
theorem fresh_join_not_cached (o : EntityOracle) (store : Store) (u : String) :
    (store.get (u ++ ":subscribed") = none → o.isSubscribed = false → o.joinResult = .ok →
      subscribe_to_channel o store u = (true, store)) ∧
    ((subscribe_to_channel o store u).2 ≠ store →
      store.get (u ++ ":subscribed") = none ∧ o.isSubscribed = true ∧
      (subscribe_to_channel o store u).2 = store.set (u ++ ":subscribed") 1) ∧
    (store.get (u ++ ":subscribed") = none →
      (o.importResult = .ok ∨ o.importResult = .alreadyParticipant) →
      subscribe_by_invite_hash o store u = (true, store.set (u ++ ":subscribed") 1)) := by
  refine ⟨?_, ?_, ?_⟩
  · intro hc hs hj
    simp [subscribe_to_channel, hc, hs, hj]
  · intro hne
    cases hg : store.get (u ++ ":subscribed") with
    | some v =>
      exfalso
      apply hne
      simp [subscribe_to_channel, hg]
    | none =>
      cases hs : o.isSubscribed with
      | true =>
        refine ⟨rfl, rfl, ?_⟩
        simp [subscribe_to_channel, hg, hs]
      | false =>
        exfalso
        apply hne
        cases hj : o.joinResult <;> simp [subscribe_to_channel, hg, hs, hj]
  · intro hc himp
    rcases himp with h | h <;> simp [subscribe_by_invite_hash, hc, h]

/-- Witness for C10: fresh successful join over an empty store leaves it
empty; a successful invite import writes the flag. -/
theorem fresh_join_not_cached_witness :
    subscribe_to_channel c10Oracle [] "@c" = (true, []) ∧
    subscribe_by_invite_hash c10InvOracle [] "hash1" =
      (true, Store.set [] ("hash1" ++ ":subscribed") 1) :=
  ⟨(fresh_join_not_cached c10Oracle [] "@c").1 rfl rfl rfl,
   (fresh_join_not_cached c10InvOracle [] "hash1").2.2 rfl (Or.inl rfl)⟩

theorem gdchat_reduce (o : EntityOracle) (store : Store) (chat : EntityV) (u : String)
    (c : Nat) (hforb : chat.forbidden = false) (hid : chat.id ≠ 0)
    (hmg : chat.megagroup = true → chat.access_hash ≠ 0)
    (hCur : store.get ("chat_last_max_id:" ++ u) = some c) :
    get_difference_update_chat o store chat u =
      (if ((o.getHistory 50 c).filter (isNewChatMessage c)) = [] then
        ([], store, [RpcEvent.getHistory 50 c])
      else
        (sortById ((o.getHistory 50 c).filter (isNewChatMessage c)),
         store.set ("chat_last_max_id:" ++ u)
           ((((o.getHistory 50 c).filter (isNewChatMessage c)).map TLMsg.getId).foldl max 0),
         [RpcEvent.getHistory 50 c,
          RpcEvent.setCursor ("chat_last_max_id:" ++ u)
            ((((o.getHistory 50 c).filter (isNewChatMessage c)).map TLMsg.getId).foldl max 0)])) := by
  have hmgc : (chat.megagroup && decide (chat.access_hash = 0)) = false := by
    cases hM : chat.megagroup
    · simp
    · simp [hmg hM]
  unfold get_difference_update_chat
  rw [hforb]
  simp only [Bool.false_eq_true, if_false, if_neg hid, hmgc, hCur, Option.getD_some]

/-- Claim C4: chat-poll sync issues the history request with lower bound
equal to the stored cursor `c`, returns exactly the proper messages of
the answer whose ids strictly exceed `c`, sorted in ascending id order,
and advances the cursor to the maximum accepted id; when no id exceeds
`c`, the cursor entry is left unchanged. -/
theorem chat_poll_filter_sort_advance (o : EntityOracle) (store : Store) (chat : EntityV)
    (u : String) (c : Nat)
    (hforb : chat.forbidden = false) (hid : chat.id ≠ 0)
    (hmg : chat.megagroup = true → chat.access_hash ≠ 0)
    (hCur : store.get ("chat_last_max_id:" ++ u) = some c) :
    RpcEvent.getHistory 50 c ∈ (get_difference_update_chat o store chat u).2.2 ∧
    (get_difference_update_chat o store chat u).1 =
      sortById ((o.getHistory 50 c).filter (isNewChatMessage c)) ∧
    List.Sorted leById (get_difference_update_chat o store chat u).1 ∧
    (∀ m, m ∈ (get_difference_update_chat o store chat u).1 ↔
      m ∈ (o.getHistory 50 c).filter (isNewChatMessage c)) ∧
    ((o.getHistory 50 c).filter (isNewChatMessage c) = [] →
      (get_difference_update_chat o store chat u).2.1 = store) ∧
    (∀ m0, m0 ∈ (o.getHistory 50 c).filter (isNewChatMessage c) →
      ∃ mx, (get_difference_update_chat o store chat u).2.1.get ("chat_last_max_id:" ++ u) =
          some mx ∧
        (∃ m1, m1 ∈ (o.getHistory 50 c).filter (isNewChatMessage c) ∧ m1.getId = mx) ∧
        (∀ m2, m2 ∈ (o.getHistory 50 c).filter (isNewChatMessage c) → m2.getId ≤ mx)) := by
  rw [gdchat_reduce o store chat u c hforb hid hmg hCur]
  by_cases hA : ((o.getHistory 50 c).filter (isNewChatMessage c)) = []
  · rw [if_pos hA]
    refine ⟨by simp, by rw [hA]; rfl, List.sorted_nil, ?_, fun _ => rfl, ?_⟩
    · intro m
      rw [hA]
    · intro m0 hm0
      rw [hA] at hm0
      cases hm0
  · rw [if_neg hA]
    refine ⟨by simp, rfl, List.sorted_insertionSort leById _, ?_, fun h => absurd h hA, ?_⟩
    · intro m
      exact (List.perm_insertionSort leById _).mem_iff
    · intro m0 hm0
      refine ⟨(((o.getHistory 50 c).filter (isNewChatMessage c)).map TLMsg.getId).foldl max 0,
        Store.get_set store _ _, ?_, ?_⟩
      · rcases foldl_max_eq_or_mem (((o.getHistory 50 c).filter (isNewChatMessage c)).map
          TLMsg.getId) 0 with he | hm
        · exfalso
          have hnew : isNewChatMessage c m0 = true := (List.mem_filter.mp hm0).2
          have hlt : c < m0.getId := by
            have := (Bool.and_eq_true _ _).mp hnew
            exact of_decide_eq_true this.2
          have hle : m0.getId ≤ (((o.getHistory 50 c).filter (isNewChatMessage c)).map
              TLMsg.getId).foldl max 0 :=
            mem_le_foldl_max _ 0 m0.getId (List.mem_map_of_mem TLMsg.getId hm0)
          omega
        · obtain ⟨m1, hm1, hid1⟩ := List.mem_map.mp hm
          exact ⟨m1, hm1, hid1⟩
      · intro m2 hm2
        exact mem_le_foldl_max _ 0 m2.getId (List.mem_map_of_mem TLMsg.getId hm2)

/-- Witness for C4: the spec's chat-poll scenario — cursor 50, answer
ids 48, 51, 55, 49; the accepted batch is exactly ids 51 and 55 in
ascending order and the cursor becomes 55. -/
theorem chat_poll_filter_sort_advance_witness :
    (get_difference_update_chat c4Oracle c4Store chatEntity "grp").1 =
      sortById ((c4Oracle.getHistory 50 50).filter (isNewChatMessage 50)) ∧
    (get_difference_update_chat c4Oracle c4Store chatEntity "grp").1 =
      [TLMsg.message 51 "b", TLMsg.message 55 "c"] ∧
    (get_difference_update_chat c4Oracle c4Store chatEntity "grp").2.1.get
      ("chat_last_max_id:" ++ "grp") = some 55 :=
  ⟨(chat_poll_filter_sort_advance c4Oracle c4Store chatEntity "grp" 50 rfl (by decide)
      (by decide) (by decide)).2.1, by decide, by decide⟩

theorem afterSubscribe_kept (o : EntityOracle) (ch : MonitoringChannel) (b : Bool)
    (st : PassState) :
    ∃ ch1, (afterSubscribe o ch b st).kept = st.kept ++ [ch1] ∧ ch1.username = ch.username := by
  unfold afterSubscribe keepEntity
  cases b with
  | false => exact ⟨ch, rfl, rfl⟩
  | true =>
    cases (safe_get_entity o).1 with
    | error e => exact ⟨ch, rfl, rfl⟩
    | ok oe =>
      cases oe with
      | none => exact ⟨ch, rfl, rfl⟩
      | some ent =>
        refine ⟨if ch.title = none then { ch with title := some ent.title } else ch, ?_, ?_⟩
        · dsimp only
          split
          all_goals split
          all_goals split
          all_goals rfl
        · by_cases ht : ch.title = none <;> simp [ht]

theorem afterSubscribe_rows (o : EntityOracle) (ch : MonitoringChannel) (b : Bool)
    (st : PassState) :
    (afterSubscribe o ch b st).rows = st.rows ∨
    ∃ u2 ups, (afterSubscribe o ch b st).rows = st.rows ++ stagePosts st.rows u2 ups := by
  unfold afterSubscribe keepEntity
  cases b with
  | false => exact Or.inl rfl
  | true =>
    cases (safe_get_entity o).1 with
    | error e => exact Or.inl rfl
    | ok oe =>
      cases oe with
      | none => exact Or.inl rfl
      | some ent =>
        dsimp only
        repeat' split
        all_goals first
          | exact Or.inl rfl
          | exact Or.inr ⟨_, _, rfl⟩

theorem processChannel_rows (o : EntityOracle) (ch : MonitoringChannel) (st : PassState) :
    (processChannel o ch st).rows = st.rows ∨
    ∃ u2 ups, (processChannel o ch st).rows = st.rows ++ stagePosts st.rows u2 ups := by
  unfold processChannel
  split
  · exact afterSubscribe_rows o ch _ _
  · cases o.checkInvite with
    | error e => exact Or.inl rfl
    | ok res =>
      dsimp only
      cases fetch_id_from_chat_invite_request res with
      | none => exact Or.inl rfl
      | some nu => exact afterSubscribe_rows o { ch with username := nu } _ _

theorem stagePosts_mem (rows : List Post) (u : String) (updates : List TLMsg) :
    ∀ p ∈ stagePosts rows u updates,
      isBlank p.content = false ∧ postExists rows u p.message_id = false := by
  intro p hp
  simp only [stagePosts, List.mem_filterMap] at hp
  obtain ⟨upd, hup, hf⟩ := hp
  cases upd with
  | service i => cases hf
  | message i t =>
    dsimp only at hf
    by_cases hb : isBlank t = true
    · rw [if_pos hb] at hf
      cases hf
    · rw [if_neg hb] at hf
      by_cases he : postExists rows u i = true
      · rw [if_pos he] at hf
        cases hf
      · rw [if_neg he] at hf
        cases hf
        exact ⟨Bool.not_eq_true _ ▸ hb, Bool.not_eq_true _ ▸ he⟩

theorem processChannel_nonblank (o : EntityOracle) (ch : MonitoringChannel) (st : PassState)
    (h : ∀ r ∈ st.rows, isBlank r.content = false) :
    ∀ r ∈ (processChannel o ch st).rows, isBlank r.content = false := by
  rcases processChannel_rows o ch st with he | ⟨u2, ups, he⟩ <;> rw [he]
  · exact h
  · intro r hr
    rcases List.mem_append.mp hr with h1 | h2
    · exact h r h1
    · exact (stagePosts_mem st.rows u2 ups r h2).1

theorem pass_foldl_nonblank (inputs : List (EntityOracle × MonitoringChannel))
    (st : PassState) (acc : List PassEvent)
    (h : ∀ r ∈ st.rows, isBlank r.content = false) :
    ∀ r ∈ (inputs.foldl
      (fun a p => (processChannel p.1 p.2 a.1, a.2 ++ [PassEvent.entity p.2.username]))
      (st, acc)).1.rows, isBlank r.content = false := by
  induction inputs generalizing st acc with
  | nil => simpa using h
  | cons hd tl ih =>
    rw [List.foldl_cons]
    exact ih _ _ (processChannel_nonblank hd.1 hd.2 st h)

theorem pass_trace_foldl (inputs : List (EntityOracle × MonitoringChannel)) (st : PassState)
    (acc : List PassEvent) :
    (inputs.foldl
      (fun a p => (processChannel p.1 p.2 a.1, a.2 ++ [PassEvent.entity p.2.username]))
      (st, acc)).2 = acc ++ inputs.map (fun p => PassEvent.entity p.2.username) := by
  induction inputs generalizing st acc with
  | nil => simp
  | cons hd tl ih => simp [ih, List.append_assoc]

/-- Claim C1: for a monitored entity whose identifier is an invite token
(neither handle nor numeric form), when check-invite reports a
resolvable permanent id the identifier is rewritten in place to that id
and the entity stays in the monitored set; when check-invite reports no
new identifier, the entity is removed from the monitored set. -/
theorem invite_resolution_rewrites_or_removes (o : EntityOracle) (ch : MonitoringChannel)
    (st : PassState) (r : ChatInviteResult)
    (hAt : firstCharIs ch.username '@' = false)
    (hDash : firstCharIs ch.username '-' = false)
    (hCheck : o.checkInvite = .ok r) :
    (∀ idStr, fetch_id_from_chat_invite_request r = some idStr →
      ∃ ch1, (processChannel o ch st).kept = st.kept ++ [ch1] ∧ ch1.username = idStr) ∧
    (fetch_id_from_chat_invite_request r = none →
      (processChannel o ch st).kept = st.kept) := by
  unfold processChannel
  rw [hAt, hDash, hCheck]
  dsimp only
  constructor
  · intro idStr hFetch
    rw [hFetch]
    obtain ⟨ch1, hk, hu⟩ := afterSubscribe_kept o { ch with username := idStr }
      (subscribe_by_invite_hash o st.store ch.username).1
      { st with store := (subscribe_by_invite_hash o st.store ch.username).2 }
    exact ⟨ch1, hk, hu⟩
  · intro hFetch
    rw [hFetch]
    rfl

/-- Witness for C1: the spec's invite-resolution scenario — check-invite
carries the permanent id 12345, so the invite-token entity is kept with
its identifier rewritten to "12345". -/
theorem invite_resolution_rewrites_or_removes_witness :
    ∃ ch1, (processChannel c1Oracle c1Channel c1State).kept = c1State.kept ++ [ch1] ∧
      ch1.username = "12345" :=
  (invite_resolution_rewrites_or_removes c1Oracle c1Channel c1State
    (ChatInviteResult.chatInviteAlready 12345) (by decide) (by decide) rfl).1
    "12345" (by decide)

/-- Counterexample to C8 as stated: one pass over one subscribed channel
whose difference answer repeats message id 9 with nonblank text; the
existence check sees neither copy (nothing of this batch is in the
session yet), so both are staged and committed — two persisted rows
share the (entity identifier, message id) pair. -/
theorem duplicate_pair_persisted_in_one_batch :
    (handle_updates_for_entities [(c8Oracle, c8Channel)] c8Store []).1.rows =
      [{ message_id := 9, channel_username := "@c", content := "hi" },
       { message_id := 9, channel_username := "@c", content := "hi" }] := by
  decide

/-- Claim C8 (amended): every staged candidate has nonblank
(after-trimming) text and an (entity identifier, message id) pair absent
from the message store at the time of its batch's existence check, and
consequently no persisted message of a pass has empty/whitespace-only
text; pair-uniqueness, however, holds only against rows already visible
in the store — two candidates arriving inside the same batch with the
same pair are both persisted. -/
theorem dedup_drops_blank_and_existing (rows : List Post) (u : String) (updates : List TLMsg)
    (inputs : List (EntityOracle × MonitoringChannel)) (store : Store) (rows0 : List Post)
    (h0 : ∀ r ∈ rows0, isBlank r.content = false) :
    (∀ p ∈ stagePosts rows u updates,
      isBlank p.content = false ∧ postExists rows u p.message_id = false) ∧
    (∀ r ∈ (handle_updates_for_entities inputs store rows0).1.rows,
      isBlank r.content = false) := by
  constructor
  · exact stagePosts_mem rows u updates
  · cases inputs with
    | nil => simpa using h0
    | cons hd tl => exact pass_foldl_nonblank (hd :: tl) _ [] h0

/-- Witness for C8 (amended): in a batch against a store holding row
(1, "@c"), the staged candidate id 3 has nonblank text and a pair absent
from the store. -/
theorem dedup_drops_blank_and_existing_witness :
    isBlank ({ message_id := 3, channel_username := "@c", content := "new" } : Post).content
      = false ∧
    postExists c8wRows "@c" 3 = false :=
  (dedup_drops_blank_and_existing c8wRows "@c" c8wUpdates [] [] [] (by simp)).1
    { message_id := 3, channel_username := "@c", content := "new" } (by decide)

/-- Counterexample to C9 as stated: a pass over an empty monitored list
returns before reaching the commit, so no commit is issued for that
pass. -/
theorem empty_pass_issues_no_commit :
    (handle_updates_for_entities [] [] []).2 = [] := rfl

/-- Claim C9 (amended): for a pass over a nonempty monitored list, every
entity is walked in order — a per-entity failure never aborts the pass —
and exactly one commit is issued, after all entities; a pass over an
empty list issues no commit at all. -/
theorem pass_isolates_errors_and_commits_once (inputs : List (EntityOracle × MonitoringChannel))
    (store : Store) (rows : List Post) (h : inputs ≠ []) :
    (handle_updates_for_entities inputs store rows).2 =
      inputs.map (fun p => PassEvent.entity p.2.username) ++ [PassEvent.commit] ∧
    (handle_updates_for_entities inputs store rows).2.count PassEvent.commit = 1 := by
  cases inputs with
  | nil => exact absurd rfl h
  | cons hd tl =>
    have htr : (handle_updates_for_entities (hd :: tl) store rows).2 =
        (hd :: tl).map (fun p => PassEvent.entity p.2.username) ++ [PassEvent.commit] := by
      unfold handle_updates_for_entities
      dsimp only
      rw [pass_trace_foldl]
      simp
    refine ⟨htr, ?_⟩
    rw [htr, List.count_append]
    have h0 : ((hd :: tl).map (fun p => PassEvent.entity p.2.username)).count
        PassEvent.commit = 0 := by
      rw [List.count_eq_zero]
      intro hmem
      obtain ⟨p, -, hp⟩ := List.mem_map.mp hmem
      cases hp
    rw [h0]
    rfl

/-- Witness for C9 (amended): a two-entity pass in which the first
entity fails to subscribe and the second raises inside the invite check;
the trace still walks both entities and ends with the single commit. -/
theorem pass_isolates_errors_and_commits_once_witness :
    (handle_updates_for_entities c9Inputs [] []).2 =
      c9Inputs.map (fun p => PassEvent.entity p.2.username) ++ [PassEvent.commit] ∧
    (handle_updates_for_entities c9Inputs [] []).2.count PassEvent.commit = 1 :=
  pass_isolates_errors_and_commits_once c9Inputs [] [] (by simp [c9Inputs])
